import Mathlib

/-
Verification development for the mbtifortune repository: a shallow embedding of
the POST /api/fortune route handler (src/app/api/fortune/route.ts) and of the
client page component (the unnamed source file), together with theorems about
the claims of the specification.

Machine-level conventions of the embedding:
* JSON-decoded JavaScript values are modelled by the inductive `Json`; numeric
  literals are kept as their source lexemes (no claim depends on numeric
  arithmetic), and `undefined` is modelled by `Option Json` where it can arise.
* The runtime builtin `JSON.parse` is modelled by `jsonParse`, a recursive
  descent parser over the JSON grammar (whitespace, strings with escapes,
  numbers, arrays, objects; the whole input must be consumed; unescaped control
  characters inside strings are rejected, as the builtin rejects them).
* JavaScript exceptions (TypeError from property access on null, calling a
  missing method) are modelled with `Except Unit`.
* `jsTrim` / `jsToUpperCase` model the JavaScript `trim()` / `toUpperCase()`
  methods on the ASCII letters and whitespace relevant here.
-/

namespace MbtiFortune

/-- JSON-decoded JavaScript value. Object fields keep source order; a duplicate
key is kept twice and property lookup takes the last occurrence, as the
JSON.parse builtin lets later duplicates win. -/
inductive Json where
  | null
  | bool (b : Bool)
  | num (lit : String)
  | str (s : String)
  | arr (elems : List Json)
  | obj (fields : List (String × Json))

/-- Last-occurrence lookup of an object field, matching the builtin's
last-duplicate-wins object construction. -/
def lookupLast (fields : List (String × Json)) (k : String) : Option Json :=
  fields.foldl (fun acc kv => if kv.1 == k then some kv.2 else acc) none

/-- Whitespace accepted between JSON tokens. -/
def isJsonWs (c : Char) : Bool :=
  c == ' ' || c == '\t' || c == '\n' || c == '\r'

def skipWs : List Char → List Char
  | [] => []
  | c :: cs => if isJsonWs c then skipWs cs else c :: cs

def isDigitChar (c : Char) : Bool := '0' ≤ c && c ≤ '9'

/-- Longest digit run at the front of the input. -/
def takeDigits : List Char → List Char × List Char
  | [] => ([], [])
  | c :: cs =>
    if isDigitChar c then
      let p := takeDigits cs
      (c :: p.1, p.2)
    else ([], c :: cs)

/-- Exponent part of a JSON number literal (optional). -/
def scanExp (acc : List Char) (cs : List Char) : Option (List Char × List Char) :=
  match cs with
  | [] => some (acc, [])
  | e :: rest =>
    if e == 'e' || e == 'E' then
      let p : List Char × List Char :=
        match rest with
        | '+' :: r => (['+'], r)
        | '-' :: r => (['-'], r)
        | _ => ([], rest)
      match takeDigits p.2 with
      | ([], _) => none
      | (ds, rest2) => some (acc ++ e :: (p.1 ++ ds), rest2)
    else some (acc, cs)

/-- Fraction part of a JSON number literal (optional), then exponent. -/
def scanFrac (acc : List Char) (cs : List Char) : Option (List Char × List Char) :=
  match cs with
  | '.' :: rest =>
    match takeDigits rest with
    | ([], _) => none
    | (ds, rest2) => scanExp (acc ++ '.' :: ds) rest2
  | _ => scanExp acc cs

/-- Scan a JSON number literal, returning its lexeme and the rest of the input.
Grammar as the builtin accepts it: optional minus, then `0` or a nonzero digit
followed by digits, optional fraction, optional exponent. -/
def scanNumber (cs : List Char) : Option (List Char × List Char) :=
  let p : List Char × List Char :=
    match cs with
    | '-' :: rest => (['-'], rest)
    | _ => ([], cs)
  match p.2 with
  | [] => none
  | c :: rest =>
    if c == '0' then scanFrac (p.1 ++ [c]) rest
    else if isDigitChar c then
      match takeDigits rest with
      | (ds, rest2) => scanFrac (p.1 ++ c :: ds) rest2
    else none

/-- Value of a hexadecimal digit, by code point: digits, then the lowercase
and uppercase letter ranges. -/
def hexDigitVal (c : Char) : Option Nat :=
  let n := c.toNat
  if 48 ≤ n && n ≤ 57 then some (n - 48)
  else if 97 ≤ n && n ≤ 102 then some (n - 87)
  else if 65 ≤ n && n ≤ 70 then some (n - 55)
  else none

/-- Decoding table of the single-character string escapes. -/
def escMap : Char → Option Char
  | '"' => some '"'
  | '\\' => some '\\'
  | '/' => some '/'
  | 'b' => some (Char.ofNat 8)
  | 'f' => some (Char.ofNat 12)
  | 'n' => some '\n'
  | 'r' => some '\r'
  | 't' => some '\t'
  | _ => none

/-- Scan a JSON string body after the opening quote: returns the decoded
characters and the input after the closing quote. Unescaped control characters
are rejected; a `\uXXXX` escape decodes to the character of that code point
(surrogate halves are not recombined — no input considered here contains any). -/
def scanString : List Char → Option (List Char × List Char)
  | [] => none
  | c :: cs =>
    if c == '"' then some ([], cs)
    else if c == '\\' then
      match cs with
      | [] => none
      | e :: cs2 =>
        if e == 'u' then
          match cs2 with
          | h1 :: h2 :: h3 :: h4 :: cs3 =>
            match hexDigitVal h1, hexDigitVal h2, hexDigitVal h3, hexDigitVal h4 with
            | some a, some b, some v, some d =>
              match scanString cs3 with
              | some (out, rest) => some (Char.ofNat (((a * 16 + b) * 16 + v) * 16 + d) :: out, rest)
              | none => none
            | _, _, _, _ => none
          | _ => none
        else
          match escMap e with
          | some ch =>
            match scanString cs2 with
            | some (out, rest) => some (ch :: out, rest)
            | none => none
          | none => none
    else if c.toNat < 32 then none
    else
      match scanString cs with
      | some (out, rest) => some (c :: out, rest)
      | none => none

mutual

/-- Parse one JSON value (fuelled; the fuel chosen in `jsonParse` always
suffices for the input length). -/
def parseValue : Nat → List Char → Option (Json × List Char)
  | 0, _ => none
  | Nat.succ fuel, cs =>
    match skipWs cs with
    | [] => none
    | c :: rest =>
      if c == '"' then
        match scanString rest with
        | some (chars, rest2) => some (Json.str (String.mk chars), rest2)
        | none => none
      else if c == '\x7b' then
        match skipWs rest with
        | '\x7d' :: rest2 => some (Json.obj [], rest2)
        | rest1 =>
          match parseMembers fuel rest1 with
          | some (fields, rest2) => some (Json.obj fields, rest2)
          | none => none
      else if c == '[' then
        match skipWs rest with
        | ']' :: rest2 => some (Json.arr [], rest2)
        | rest1 =>
          match parseElements fuel rest1 with
          | some (elems, rest2) => some (Json.arr elems, rest2)
          | none => none
      else if c == 't' then
        match rest with
        | 'r' :: 'u' :: 'e' :: rest2 => some (Json.bool true, rest2)
        | _ => none
      else if c == 'f' then
        match rest with
        | 'a' :: 'l' :: 's' :: 'e' :: rest2 => some (Json.bool false, rest2)
        | _ => none
      else if c == 'n' then
        match rest with
        | 'u' :: 'l' :: 'l' :: rest2 => some (Json.null, rest2)
        | _ => none
      else
        match scanNumber (c :: rest) with
        | some (lex, rest2) => some (Json.num (String.mk lex), rest2)
        | none => none

/-- Parse the elements of a non-empty JSON array, consuming the closing
bracket. -/
def parseElements : Nat → List Char → Option (List Json × List Char)
  | 0, _ => none
  | Nat.succ fuel, cs =>
    match parseValue fuel cs with
    | none => none
    | some (v, rest) =>
      match skipWs rest with
      | ',' :: rest2 =>
        match parseElements fuel rest2 with
        | some (vs, rest3) => some (v :: vs, rest3)
        | none => none
      | ']' :: rest2 => some ([v], rest2)
      | _ => none

/-- Parse the members of a non-empty JSON object, consuming the closing
brace. -/
def parseMembers : Nat → List Char → Option (List (String × Json) × List Char)
  | 0, _ => none
  | Nat.succ fuel, cs =>
    match skipWs cs with
    | '"' :: rest =>
      match scanString rest with
      | none => none
      | some (keyChars, rest1) =>
        match skipWs rest1 with
        | ':' :: rest2 =>
          match parseValue fuel rest2 with
          | none => none
          | some (v, rest3) =>
            match skipWs rest3 with
            | ',' :: rest4 =>
              match parseMembers fuel rest4 with
              | some (fields, rest5) => some ((String.mk keyChars, v) :: fields, rest5)
              | none => none
            | '\x7d' :: rest4 => some ([(String.mk keyChars, v)], rest4)
            | _ => none
        | _ => none
    | _ => none

end

/-- Model of the runtime builtin `JSON.parse`: `none` when the builtin would
throw a SyntaxError, otherwise the decoded value. The whole input, up to
trailing whitespace, must be consumed. -/
def jsonParse (s : String) : Option Json :=
  match parseValue (2 * s.data.length + 2) s.data with
  | some (v, rest) => if (skipWs rest).isEmpty then some v else none
  | none => none

/-!
Embedding of the endpoint, src/app/api/fortune/route.ts.

The handler's inputs are modelled as explicit parameters:
* `apiKey : Option String` — `process.env.OPENAI_API_KEY` (`none` when unset);
  constructing the SDK client at module load is modelled as effect-free, the
  handler's own guard is the first thing that runs.
* `bodyText : String` — the raw request body; `await request.json()` is
  `jsonParse bodyText`, its rejection being the parse failure.
* `call : CallOutcome` — what the single awaited
  `openai.chat.completions.create(...)` call would do if reached.
-/

/-- Whitespace removed by the `trim()` method: the ASCII whitespace characters
exercised by this program (the JavaScript method also strips other Unicode
space code points, which no input here contains). -/
def isTrimmable (c : Char) : Bool :=
  c == ' ' || c == '\t' || c == '\n' || c == '\r' || c == '\x0b' || c == '\x0c'

/-- Model of `String.prototype.trim`. -/
def jsTrim (s : String) : String :=
  String.mk (((s.data.dropWhile isTrimmable).reverse.dropWhile isTrimmable).reverse)

def upperChar (c : Char) : Char :=
  if 'a' ≤ c && c ≤ 'z' then Char.ofNat (c.toNat - 32) else c

/-- Model of `String.prototype.toUpperCase` on the ASCII letters this program
compares (the JavaScript method also maps other cased letters, which cannot
influence the `[IE][NS][TF][JP]` test). -/
def jsToUpperCase (s : String) : String := String.mk (s.data.map upperChar)

/-- Property read `v[k]` on a JSON-decoded value: throws a TypeError on null
(`Except.error`), yields the own property on an object, and yields undefined
(`none`) on primitives and arrays for the non-index, non-prototype keys used in
this program ("mbti", "concern", "error", "text", "energyLevel"). -/
def getProp : Json → String → Except Unit (Option Json)
  | Json.null, _ => Except.error ()
  | Json.obj fields, k => Except.ok (lookupLast fields k)
  | _, _ => Except.ok none

/-- Evaluation of `payload.mbti?.trim().toUpperCase() ?? ''` (route.ts line 71):
reading on a null payload throws; an undefined or null field short-circuits to
the empty-string default; a string field is trimmed and uppercased; any other
field value throws, because `.trim` is not a function on it. -/
def readMbti (payload : Json) : Except Unit String :=
  match getProp payload "mbti" with
  | Except.error _ => Except.error ()
  | Except.ok none => Except.ok ""
  | Except.ok (some Json.null) => Except.ok ""
  | Except.ok (some (Json.str s)) => Except.ok (jsToUpperCase (jsTrim s))
  | Except.ok (some _) => Except.error ()

/-- Evaluation of `payload.concern?.trim() ?? ''` (route.ts line 72), with the
same exception behaviour as `readMbti`. -/
def readConcern (payload : Json) : Except Unit String :=
  match getProp payload "concern" with
  | Except.error _ => Except.error ()
  | Except.ok none => Except.ok ""
  | Except.ok (some Json.null) => Except.ok ""
  | Except.ok (some (Json.str s)) => Except.ok (jsTrim s)
  | Except.ok (some _) => Except.error ()

/-- The test of `/^[IE][NS][TF][JP]$/` (route.ts line 73). -/
def mbtiPattern (s : String) : Bool :=
  match s.data with
  | [a, b, c, d] =>
    (a == 'I' || a == 'E') && (b == 'N' || b == 'S') &&
    (c == 'T' || c == 'F') && (d == 'J' || d == 'P')
  | _ => false

/-- Truthiness of `process.env.OPENAI_API_KEY`: unset and the empty string are
falsy. -/
def envTruthy : Option String → Bool
  | none => false
  | some s => !(s == "")

/-- Outcome of the awaited `openai.chat.completions.create(...)` call: either
the promise rejects (`throw`), or it resolves and
`completion.choices[0]?.message?.content`, widened to `unknown`, is the given
JSON-decoded value — `ok none` when that optional chain yields undefined (for
example when `choices` is empty). -/
inductive CallOutcome where
  | throw
  | ok (content : Option Json)

/-- The per-block ternary of route.ts lines 121-125: a block contributes its
`text` property when the block is a truthy object whose `text` is a string, and
the empty string otherwise. -/
def blockText : Json → String
  | Json.obj fields =>
    match lookupLast fields "text" with
    | some (Json.str s) => s
    | _ => ""
  | _ => ""

/-- Content normalization of route.ts lines 116-127: a string is used as-is; an
array is mapped through `blockText` and joined with newlines; anything else
(null, undefined, objects, numbers) yields the empty string. -/
def rawContentOf (message : Option Json) : String :=
  match message with
  | some (Json.str s) => s
  | some (Json.arr xs) => String.intercalate "\n" (xs.map blockText)
  | _ => ""

def missingKeyMsg : String := "OPENAI_API_KEY가 설정되지 않았습니다."

def badBodyMsg : String := "요청 본문을 읽을 수 없습니다."

def invalidMbtiMsg : String := "유효한 MBTI 유형을 선택해 주세요."

def genericFailureMsg : String := "점괘 생성 중 문제가 발생했어요. 잠시 후 다시 시도해 주세요."

/-- Body of an error response, `{ error: msg }`. -/
def errBody (msg : String) : Json := Json.obj [("error", Json.str msg)]

/-- What one invocation of the handler does: an HTTP response with a status and
a JSON body, or an exception escaping the handler. -/
inductive Outcome where
  | resp (status : Nat) (body : Json)
  | exn

/-- The POST handler of route.ts, lines 53-143. The returned Bool records
whether the external completion call was attempted. The evaluation order of the
source is kept: credential guard, body parse (its own try/catch), the two field
reads of lines 71-72 (which can throw outside any try/catch), the validation
guard of line 75, then the guarded region: the external call, the emptiness
check, `JSON.parse`, and the catch-all that maps any failure there to a generic
500. The `concern` value only feeds the prompt text, which the `call` parameter
abstracts, so it is read but otherwise unused. -/
def POST (apiKey : Option String) (bodyText : String) (call : CallOutcome) :
    Outcome × Bool :=
  if !(envTruthy apiKey) then
    (Outcome.resp 500 (errBody missingKeyMsg), false)
  else
    match jsonParse bodyText with
    | none => (Outcome.resp 400 (errBody badBodyMsg), false)
    | some payload =>
      match readMbti payload with
      | Except.error _ => (Outcome.exn, false)
      | Except.ok mbti =>
        match readConcern payload with
        | Except.error _ => (Outcome.exn, false)
        | Except.ok _concern =>
          if mbti == "" || !mbtiPattern mbti then
            (Outcome.resp 400 (errBody invalidMbtiMsg), false)
          else
            match call with
            | CallOutcome.throw => (Outcome.resp 500 (errBody genericFailureMsg), true)
            | CallOutcome.ok content =>
              let rawContent := rawContentOf content
              if rawContent == "" then
                (Outcome.resp 500 (errBody genericFailureMsg), true)
              else
                match jsonParse rawContent with
                | none => (Outcome.resp 500 (errBody genericFailureMsg), true)
                | some parsed => (Outcome.resp 200 parsed, true)

/-- Whether a JSON body has the shape `{ error: string }`. -/
def isErrorBody : Json → Bool
  | Json.obj [("error", Json.str _)] => true
  | _ => false

/-- Whether an outcome is a recovered, structured one: a success response, or a
non-success response carrying an `{ error: string }` body — never an escaped
exception. -/
def handledOutcome : Outcome → Bool
  | Outcome.exn => false
  | Outcome.resp status body => status == 200 || isErrorBody body

def isStringJson : Json → Bool
  | Json.str _ => true
  | _ => false

/-- Whether a JSON value is a fully-populated FortuneResponse: an object whose
`headline`, `fortune`, `luckyItem` and `energyLevel` are strings and whose
`actionSteps` is an array of strings. -/
def hasFortuneShape (j : Json) : Bool :=
  match j with
  | Json.obj fields =>
    (match lookupLast fields "headline" with
     | some (Json.str _) => true | _ => false) &&
    (match lookupLast fields "fortune" with
     | some (Json.str _) => true | _ => false) &&
    (match lookupLast fields "actionSteps" with
     | some (Json.arr xs) => xs.all isStringJson | _ => false) &&
    (match lookupLast fields "luckyItem" with
     | some (Json.str _) => true | _ => false) &&
    (match lookupLast fields "energyLevel" with
     | some (Json.str _) => true | _ => false)
  | _ => false

/-- Textual portion of a content block, when one is extractable: `some` of the
`text` string of an object block, `none` otherwise. -/
def extractText : Json → Option String
  | Json.obj fields =>
    match lookupLast fields "text" with
    | some (Json.str s) => some s
    | _ => none
  | _ => none

/-- Modelled from the spec: content normalization as §4.2 step 5 words it,
"concatenate the textual portion of each block (skipping blocks without
extractable text) joined by newlines" — a skipped block contributes no element
to the join. Written from the spec sentence for comparison with `rawContentOf`,
which is the code's normalization. -/
def rawContentSpecWords (message : Option Json) : String :=
  match message with
  | some (Json.str s) => s
  | some (Json.arr xs) => String.intercalate "\n" (xs.filterMap extractText)
  | _ => ""

/-!
Embedding of the client page component (the `Home` component of the unnamed
source file): its `useState` slots, the `handleSubmit` handler, and the
`energyTone` memo.
-/

/-- JavaScript truthiness on JSON-decoded values: null, false, the empty string
and numeric zero are falsy. A numeric literal is zero exactly when its mantissa
(the part before any exponent marker) has no nonzero digit. -/
def numLexZero (lit : String) : Bool :=
  (lit.data.takeWhile (fun c => !(c == 'e' || c == 'E'))).all
    (fun c => !(isDigitChar c) || c == '0')

def jsFalsy : Json → Bool
  | Json.null => true
  | Json.bool b => !b
  | Json.str s => s == ""
  | Json.num lit => numLexZero lit
  | Json.arr _ => false
  | Json.obj _ => false

/-- JavaScript string coercion `String(v)` of a JSON-decoded value, used when a
non-string `error` field reaches `new Error(...)`. Arrays and objects are
approximated by their conventional coercions with elements elided; only the
string case is exercised by the response shapes this program produces. -/
def jsToString : Json → String
  | Json.str s => s
  | Json.null => "null"
  | Json.bool true => "true"
  | Json.bool false => "false"
  | Json.num lit => lit
  | Json.arr _ => ""
  | Json.obj _ => "[object Object]"

/-- Optional-chained property read `v?.[k]`: undefined on null (no throw),
otherwise as `getProp` on the non-null values JSON can produce. -/
def getPropOpt (v : Json) (k : String) : Option Json :=
  match v with
  | Json.null => none
  | Json.obj fields => lookupLast fields k
  | _ => none

def defaultFetchMsg : String := "점괘를 가져오는 중 문제가 발생했어요."

def unknownErrorMsg : String := "알 수 없는 오류가 발생했어요."

def selectMbtiMsg : String := "MBTI 유형을 선택해 주세요."

/-- The message of `new Error((payload as { error?: string })?.error ?? '...')`
(client lines 89-92): the `error` field when the nullish-coalescing does not
fire (it fires on an undefined or null field), coerced to a string. -/
def extractErrMsg (payload : Json) : String :=
  match getPropOpt payload "error" with
  | some Json.null => defaultFetchMsg
  | some v => jsToString v
  | none => defaultFetchMsg

/-- Outcome of `fetch('/api/fortune', ...)` followed by reading the body: the
promise rejects (`reject`, carrying the thrown value's message when it is an
Error object), or a response arrives with its `ok` flag and raw body text. -/
inductive FetchOutcome where
  | reject (errMsg : Option String)
  | resp (ok : Bool) (bodyText : String)

/-- The React state slots of the `Home` component. The fortune slot holds the
JSON payload stored by the unchecked `payload as FortuneResponse` cast;
`none` is the initial null. -/
structure ClientState where
  mbti : String
  concern : String
  fortune : Option Json
  isLoading : Bool
  error : Option String
  lastUpdated : String

/-- The `handleSubmit` handler (client lines 64-111) as a state transition,
with the submit-time clock reading passed in as `now`. An empty `mbti` fails
locally before any network call; otherwise the in-flight flag is set and the
error cleared, the fetch outcome is consumed — the body parsed defensively,
`.catch(() => null)` collapsing an unparseable body to null, a non-ok status or
falsy payload throwing an Error that the catch turns into the error slot, and a
success storing the payload and the timestamp — and the `finally` clears the
in-flight flag on every path. -/
def handleSubmit (st : ClientState) (now : String) (fetch : FetchOutcome) :
    ClientState :=
  if st.mbti == "" then
    { st with error := some selectMbtiMsg }
  else
    let st1 := { st with isLoading := true, error := none }
    let st2 :=
      match fetch with
      | FetchOutcome.reject errMsg =>
        { st1 with error := some (errMsg.getD unknownErrorMsg) }
      | FetchOutcome.resp ok bodyText =>
        let payload := (jsonParse bodyText).getD Json.null
        if !ok || jsFalsy payload then
          { st1 with error := some (extractErrMsg payload) }
        else
          { st1 with fortune := some payload, lastUpdated := now }
    { st2 with isLoading := false }

/-- Whether a fetch outcome takes the failure path of `handleSubmit`: a
rejection, a non-ok status, or a body whose defensive parse leaves a falsy
payload. -/
def fetchFails : FetchOutcome → Bool
  | FetchOutcome.reject _ => true
  | FetchOutcome.resp ok bodyText =>
    !ok || jsFalsy ((jsonParse bodyText).getD Json.null)

/-- The three visual tones of the energy classification. -/
inductive Tone where
  | high
  | low
  | mid
deriving DecidableEq

/-- Substring test modelling `String.prototype.includes`. -/
def includesAux (pat : List Char) : List Char → Bool
  | [] => pat.isPrefixOf ([] : List Char)
  | c :: cs => pat.isPrefixOf (c :: cs) || includesAux pat cs

def strIncludes (s pat : String) : Bool := includesAux pat.data s.data

/-- The `energyTone` memo (client lines 47-53) over the fortune slot: null (or
a falsy payload) yields no tone; otherwise `fortune.energyLevel.trim()` is
classified — `Except.error` marks the TypeError thrown when `energyLevel` is
not a string, which no input considered by the claims produces. -/
def energyTone (fortune : Option Json) : Except Unit (Option Tone) :=
  match fortune with
  | none => Except.ok none
  | some f =>
    if jsFalsy f then Except.ok none
    else
      match getProp f "energyLevel" with
      | Except.error _ => Except.error ()
      | Except.ok none => Except.error ()
      | Except.ok (some (Json.str s)) =>
        let normalized := jsTrim s
        Except.ok (some
          (if strIncludes normalized "높" then Tone.high
           else if strIncludes normalized "낮" then Tone.low
           else Tone.mid))
      | Except.ok (some Json.null) => Except.error ()
      | Except.ok (some _) => Except.error ()

/-- The sixteen option values rendered by the type selector (client lines
6-23). -/
def MBTI_TYPES : List String :=
  ["INTJ", "INTP", "ENTJ", "ENTP", "INFJ", "INFP", "ENFJ", "ENFP",
   "ISTJ", "ISFJ", "ESTJ", "ESFJ", "ISTP", "ISFP", "ESTP", "ESFP"]

/-- All values the rendered `select` offers: the empty placeholder option plus
the sixteen codes. -/
def selectOptionValues : List String := "" :: MBTI_TYPES

/-- Values the `mbti` state slot can hold: the initial empty string, or a value
stored by the select's onChange handler — which, the select being the only
writer, is one of the rendered option values. -/
inductive MbtiReachable : String → Prop where
  | initial : MbtiReachable ""
  | selected (v : String) : v ∈ selectOptionValues → MbtiReachable v

/-!
Theorems.
-/

/-- The body of every error response has the `{ error: string }` shape. -/
theorem isErrorBody_errBody (msg : String) : isErrorBody (errBody msg) = true := rfl

/-- C5: when the credential is absent from the environment, the handler
responds 500 with an `{ error }` body and never attempts the external call,
whatever the request body (valid, malformed or unparseable) and whatever the
external service would have done. -/
theorem c5_missing_credential_rejected (bodyText : String) (call : CallOutcome) :
    POST none bodyText call = (Outcome.resp 500 (errBody missingKeyMsg), false) :=
  rfl

/-- C1 (counterexample): the request body `{"mbti":42}` has an `mbti` field
that does not match the 4-letter pattern, yet the handler does not return a
client-error response: evaluating `payload.mbti?.trim()` on the numeric field
throws a TypeError, and route.ts lines 71-80 sit outside every try/catch, so
the exception escapes the handler. -/
theorem c1_counterexample :
    POST (some "k") "\x7b\"mbti\":42\x7d" (CallOutcome.ok none) =
      (Outcome.exn, false) :=
  rfl

/-- C1 (amended): provided the credential is configured and the body parses to
a JSON value on which reading the `mbti` and `concern` fields does not throw
(the body is not JSON null and those fields are absent, null, or strings), a
request whose normalized `mbti` is empty or fails the 4-letter pattern is
answered 400 with an `{ error }` body and the external service is never
invoked. -/
theorem c1_invalid_mbti_rejected (apiKey : Option String) (bodyText : String)
    (call : CallOutcome) (payload : Json) (mbti concern : String)
    (hkey : envTruthy apiKey = true)
    (hparse : jsonParse bodyText = some payload)
    (hmbti : readMbti payload = Except.ok mbti)
    (hconcern : readConcern payload = Except.ok concern)
    (hbad : mbti = "" ∨ mbtiPattern mbti = false) :
    POST apiKey bodyText call = (Outcome.resp 400 (errBody invalidMbtiMsg), false) := by
  have hguard : (mbti == "" || !mbtiPattern mbti) = true := by
    rcases hbad with rfl | h
    · simp
    · simp [h]
  simp [POST, hkey, hparse, hmbti, hconcern, hguard]

/-- C1 (witness): the empty object body reaches the 400 validation answer. -/
theorem c1_witness :
    POST (some "k") "\x7b\x7d" (CallOutcome.ok none) =
      (Outcome.resp 400 (errBody invalidMbtiMsg), false) :=
  c1_invalid_mbti_rejected (some "k") "\x7b\x7d" (CallOutcome.ok none)
    (Json.obj []) "" "" rfl rfl rfl rfl (Or.inl rfl)

/-- C3 (counterexample): the body `null` is valid JSON, so the body-reading
try/catch does not fire; `payload.mbti` on the null payload then throws a
TypeError outside every try/catch and the handler terminates with an unhandled
exception instead of a structured `{ error }` response. -/
theorem c3_counterexample :
    POST (some "k") "null" (CallOutcome.ok none) = (Outcome.exn, false) :=
  rfl

/-- C3 (amended): for every request whose body either fails to parse as JSON or
parses to a value on which reading the `mbti` and `concern` fields does not
throw, every failure is caught inside the handler and converted to a structured
response — a success, or an `{ error: string }` body with a non-success status;
no exception escapes. -/
theorem c3_failures_recovered (apiKey : Option String) (bodyText : String)
    (call : CallOutcome)
    (h : jsonParse bodyText = none ∨
      ∃ payload mbti concern, jsonParse bodyText = some payload ∧
        readMbti payload = Except.ok mbti ∧ readConcern payload = Except.ok concern) :
    handledOutcome (POST apiKey bodyText call).1 = true := by
  cases hkey : envTruthy apiKey with
  | false => simp [POST, hkey, handledOutcome, isErrorBody_errBody]
  | true =>
    rcases h with hnone | ⟨payload, mbti, concern, hparse, hmbti, hconcern⟩
    · simp [POST, hkey, hnone, handledOutcome, isErrorBody_errBody]
    · cases hguard : (mbti == "" || !mbtiPattern mbti) with
      | true => simp [POST, hkey, hparse, hmbti, hconcern, hguard, handledOutcome,
          isErrorBody_errBody]
      | false =>
        cases call with
        | throw => simp [POST, hkey, hparse, hmbti, hconcern, hguard, handledOutcome,
            isErrorBody_errBody]
        | ok content =>
          cases hraw : (rawContentOf content == "") with
          | true => simp [POST, hkey, hparse, hmbti, hconcern, hguard, hraw,
              handledOutcome, isErrorBody_errBody]
          | false =>
            cases hjson : jsonParse (rawContentOf content) with
            | none => simp [POST, hkey, hparse, hmbti, hconcern, hguard, hraw, hjson,
                handledOutcome, isErrorBody_errBody]
            | some parsed => simp [POST, hkey, hparse, hmbti, hconcern, hguard, hraw,
                hjson, handledOutcome]

/-- C3 (witness): an unparseable body is recovered into a structured
response. -/
theorem c3_witness :
    handledOutcome (POST (some "k") "not json" (CallOutcome.ok none)).1 = true :=
  c3_failures_recovered (some "k") "not json" (CallOutcome.ok none) (Or.inl rfl)

/-- C2 (counterexample): on a valid request, a completion whose content is the
string "[]" parses as JSON, and the handler returns it with status 200 — a
success response whose body is neither a fully-populated FortuneResponse nor an
`{ error: string }` object, because `JSON.parse(rawContent) as FortuneResponse`
asserts the shape without checking it. -/
theorem c2_counterexample :
    POST (some "k") "\x7b\"mbti\":\"INTJ\"\x7d" (CallOutcome.ok (some (Json.str "[]"))) =
      (Outcome.resp 200 (Json.arr []), true)
    ∧ hasFortuneShape (Json.arr []) = false
    ∧ isErrorBody (Json.arr []) = false :=
  ⟨rfl, rfl, rfl⟩

/-- C2 (amended): whenever the handler produces a response at all (it throws
instead when the parsed body is null or carries a non-string `mbti` or
`concern`), the response is either status 200 whose body is exactly the JSON
value parsed from the normalized completion content — a fully-populated
FortuneResponse whenever the external service honours the requested schema — or
a non-success status with an `{ error: string }` body; no other response shape
is produced. -/
theorem c2_response_dichotomy (apiKey : Option String) (bodyText : String)
    (call : CallOutcome) (status : Nat) (body : Json)
    (h : (POST apiKey bodyText call).1 = Outcome.resp status body) :
    (status = 200 ∧ ∃ content, call = CallOutcome.ok content ∧
      jsonParse (rawContentOf content) = some body) ∨
    (status ≠ 200 ∧ isErrorBody body = true) := by
  cases hkey : envTruthy apiKey with
  | false =>
    simp [POST, hkey] at h
    exact Or.inr ⟨by omega, h.2 ▸ isErrorBody_errBody _⟩
  | true =>
    cases hparse : jsonParse bodyText with
    | none =>
      simp [POST, hkey, hparse] at h
      exact Or.inr ⟨by omega, h.2 ▸ isErrorBody_errBody _⟩
    | some payload =>
      cases hmbti : readMbti payload with
      | error e => simp [POST, hkey, hparse, hmbti] at h
      | ok mbti =>
        cases hconcern : readConcern payload with
        | error e => simp [POST, hkey, hparse, hmbti, hconcern] at h
        | ok concern =>
          cases hguard : (mbti == "" || !mbtiPattern mbti) with
          | true =>
            simp [POST, hkey, hparse, hmbti, hconcern, hguard] at h
            exact Or.inr ⟨by omega, h.2 ▸ isErrorBody_errBody _⟩
          | false =>
            cases call with
            | throw =>
              simp [POST, hkey, hparse, hmbti, hconcern, hguard] at h
              exact Or.inr ⟨by omega, h.2 ▸ isErrorBody_errBody _⟩
            | ok content =>
              cases hraw : (rawContentOf content == "") with
              | true =>
                simp [POST, hkey, hparse, hmbti, hconcern, hguard, hraw] at h
                exact Or.inr ⟨by omega, h.2 ▸ isErrorBody_errBody _⟩
              | false =>
                cases hjson : jsonParse (rawContentOf content) with
                | none =>
                  simp [POST, hkey, hparse, hmbti, hconcern, hguard, hraw, hjson] at h
                  exact Or.inr ⟨by omega, h.2 ▸ isErrorBody_errBody _⟩
                | some parsed =>
                  simp [POST, hkey, hparse, hmbti, hconcern, hguard, hraw, hjson] at h
                  exact Or.inl ⟨h.1.symm, content, rfl, h.2 ▸ hjson⟩

/-- C2 (amended, witness): a validation failure lands in the error half of the
dichotomy. -/
theorem c2_witness :
    (400 = 200 ∧ ∃ content, CallOutcome.ok (none : Option Json) = CallOutcome.ok content ∧
      jsonParse (rawContentOf content) = some (errBody invalidMbtiMsg)) ∨
    (400 ≠ 200 ∧ isErrorBody (errBody invalidMbtiMsg) = true) :=
  c2_response_dichotomy (some "k") "\x7b\x7d" (CallOutcome.ok none) 400
    (errBody invalidMbtiMsg) rfl

/-- C4 (counterexample): for the block sequence `[{}, {text:"1"}]` the code's
normalization maps the textless block to the empty string and still joins with
a newline, producing "\n1", while the claimed skipping of blocks without
extractable text would produce "1" — the two strings differ. -/
theorem c4_counterexample :
    rawContentOf (some (Json.arr [Json.obj [], Json.obj [("text", Json.str "1")]])) = "\n1"
    ∧ rawContentSpecWords (some (Json.arr [Json.obj [], Json.obj [("text", Json.str "1")]])) = "1"
    ∧ ("\n1" : String) ≠ "1" :=
  ⟨rfl, rfl, by decide⟩

/-- C4 (amended): a string content is used as-is; a block-sequence content is
normalized by joining the blocks' textual portions with newlines, a block
without extractable text contributing the empty string (not being skipped), and
the result is the single string the handler subsequently JSON-parses. -/
theorem c4_normalized_content :
    (∀ s, rawContentOf (some (Json.str s)) = s) ∧
    (∀ xs, rawContentOf (some (Json.arr xs)) =
      String.intercalate "\n" (xs.map (fun b => (extractText b).getD ""))) := by
  have hb : ∀ b, blockText b = (extractText b).getD "" := by
    intro b
    cases b with
    | obj fields =>
      simp only [blockText, extractText]
      cases h : lookupLast fields "text" with
      | none => rfl
      | some v => cases v <;> rfl
    | null => rfl
    | bool b => rfl
    | num l => rfl
    | str s => rfl
    | arr xs => rfl
  refine ⟨fun s => rfl, fun xs => ?_⟩
  show String.intercalate "\n" (xs.map blockText) = _
  rw [funext hb]

/-- C6: on a valid request with the credential configured, when the external
call succeeds and its normalized content is a non-empty string that parses as
JSON of the FortuneResponse shape, the handler returns exactly that parsed
value — unmodified — with status 200. -/
theorem c6_success_returns_parsed (apiKey : Option String) (bodyText : String)
    (payload : Json) (mbti concern : String) (content : Option Json) (parsed : Json)
    (hkey : envTruthy apiKey = true)
    (hparse : jsonParse bodyText = some payload)
    (hmbti : readMbti payload = Except.ok mbti)
    (hconcern : readConcern payload = Except.ok concern)
    (hmne : mbti ≠ "")
    (hpat : mbtiPattern mbti = true)
    (hne : rawContentOf content ≠ "")
    (hjson : jsonParse (rawContentOf content) = some parsed)
    (_hshape : hasFortuneShape parsed = true) :
    POST apiKey bodyText (CallOutcome.ok content) = (Outcome.resp 200 parsed, true) := by
  simp [POST, hkey, hparse, hmbti, hconcern, hmne, hpat, hne, hjson]

/-- C6 (witness): the lowercase request `{"mbti":" intj ","concern":"고민"}`
with a schema-shaped completion is answered 200 with the parsed object. -/
theorem c6_witness :
    POST (some "k") "\x7b\"mbti\":\" intj \",\"concern\":\"고민\"\x7d"
      (CallOutcome.ok (some (Json.str "\x7b\"headline\":\"맑음\",\"fortune\":\"좋은 날\",\"actionSteps\":[\"a\",\"b\",\"c\"],\"luckyItem\":\"양말\",\"energyLevel\":\"높음\"\x7d"))) =
      (Outcome.resp 200 (Json.obj
        [("headline", Json.str "맑음"), ("fortune", Json.str "좋은 날"),
         ("actionSteps", Json.arr [Json.str "a", Json.str "b", Json.str "c"]),
         ("luckyItem", Json.str "양말"), ("energyLevel", Json.str "높음")]), true) :=
  c6_success_returns_parsed (some "k")
    "\x7b\"mbti\":\" intj \",\"concern\":\"고민\"\x7d"
    (Json.obj [("mbti", Json.str " intj "), ("concern", Json.str "고민")])
    "INTJ" "고민"
    (some (Json.str "\x7b\"headline\":\"맑음\",\"fortune\":\"좋은 날\",\"actionSteps\":[\"a\",\"b\",\"c\"],\"luckyItem\":\"양말\",\"energyLevel\":\"높음\"\x7d"))
    (Json.obj
      [("headline", Json.str "맑음"), ("fortune", Json.str "좋은 날"),
       ("actionSteps", Json.arr [Json.str "a", Json.str "b", Json.str "c"]),
       ("luckyItem", Json.str "양말"), ("energyLevel", Json.str "높음")])
    rfl rfl rfl rfl (by decide) rfl (by decide) rfl rfl

/-- C7: on a valid request with the credential configured, when the call
succeeds but the normalized content is the empty string or fails to parse as
JSON, the handler responds 500 with the one generic user-facing message — a
fixed constant, so no portion of the model output and no error detail reaches
the response. -/
theorem c7_bad_content_generic_error (apiKey : Option String) (bodyText : String)
    (payload : Json) (mbti concern : String) (content : Option Json)
    (hkey : envTruthy apiKey = true)
    (hparse : jsonParse bodyText = some payload)
    (hmbti : readMbti payload = Except.ok mbti)
    (hconcern : readConcern payload = Except.ok concern)
    (hmne : mbti ≠ "")
    (hpat : mbtiPattern mbti = true)
    (hfail : rawContentOf content = "" ∨ jsonParse (rawContentOf content) = none) :
    POST apiKey bodyText (CallOutcome.ok content) =
      (Outcome.resp 500 (errBody genericFailureMsg), true) := by
  rcases hfail with hempty | hnojson
  · simp [POST, hkey, hparse, hmbti, hconcern, hmne, hpat, hempty]
  · cases hraw : (rawContentOf content == "") with
    | true => simp [POST, hkey, hparse, hmbti, hconcern, hmne, hpat, hraw]
    | false => simp [POST, hkey, hparse, hmbti, hconcern, hmne, hpat, hraw, hnojson]

/-- C7 (witness): a completion content of "hello" does not parse as JSON, and
the handler answers with the generic 500. -/
theorem c7_witness :
    POST (some "k") "\x7b\"mbti\":\"ENFP\"\x7d" (CallOutcome.ok (some (Json.str "hello"))) =
      (Outcome.resp 500 (errBody genericFailureMsg), true) :=
  c7_bad_content_generic_error (some "k") "\x7b\"mbti\":\"ENFP\"\x7d"
    (Json.obj [("mbti", Json.str "ENFP")]) "ENFP" ""
    (some (Json.str "hello"))
    rfl rfl rfl rfl (by decide) rfl (Or.inr rfl)

/-- C8: the energy-tone classification of a result is a pure function of the
result's `energyLevel` string — the equation's right-hand side depends on that
string alone, so two results with equal `energyLevel` classify equally: a
trimmed string containing the high marker is high; otherwise one containing the
low marker is low; otherwise mid. With no result at all (`none`), no tone is
computed. -/
theorem c8_energy_tone_classification (fields : List (String × Json)) (s : String)
    (hs : lookupLast fields "energyLevel" = some (Json.str s)) :
    energyTone (some (Json.obj fields)) =
      Except.ok (some
        (if strIncludes (jsTrim s) "높" then Tone.high
         else if strIncludes (jsTrim s) "낮" then Tone.low
         else Tone.mid))
    ∧ energyTone none = Except.ok none := by
  constructor
  · simp [energyTone, jsFalsy, getProp, hs]
  · rfl

/-- C8 (witness): the label "에너지 높음" classifies as the high tone. -/
theorem c8_witness :
    energyTone (some (Json.obj [("energyLevel", Json.str "에너지 높음")])) =
      Except.ok (some Tone.high) := by
  rw [(c8_energy_tone_classification [("energyLevel", Json.str "에너지 높음")]
    "에너지 높음" rfl).1]
  rfl

/-- C9: a submission whose fetch fails — promise rejection, non-ok status, or a
body whose defensive parse leaves no usable payload — leaves the stored result
and the last-updated timestamp exactly as they were and sets only the separate
error slot; the failure branch of `handleSubmit` never writes the fortune or
timestamp slots, so the result is overwritten only on success. -/
theorem c9_failure_preserves_result (st : ClientState) (now : String)
    (fetch : FetchOutcome)
    (_hprev : st.fortune.isSome = true)
    (hfail : fetchFails fetch = true) :
    (handleSubmit st now fetch).fortune = st.fortune ∧
    (handleSubmit st now fetch).lastUpdated = st.lastUpdated ∧
    ∃ msg, (handleSubmit st now fetch).error = some msg := by
  cases hm : (st.mbti == "") with
  | true => exact ⟨by simp [handleSubmit, hm], by simp [handleSubmit, hm],
      selectMbtiMsg, by simp [handleSubmit, hm]⟩
  | false =>
    cases fetch with
    | reject errMsg =>
      exact ⟨by simp [handleSubmit, hm], by simp [handleSubmit, hm],
        errMsg.getD unknownErrorMsg, by simp [handleSubmit, hm]⟩
    | resp ok bodyText =>
      have hcond : (!ok || jsFalsy ((jsonParse bodyText).getD Json.null)) = true := hfail
      exact ⟨by simp [handleSubmit, hm, hcond], by simp [handleSubmit, hm, hcond],
        extractErrMsg ((jsonParse bodyText).getD Json.null),
        by simp [handleSubmit, hm, hcond]⟩

/-- C9 (witness): after a stored result, a 400 response with an `{ error }`
body leaves the result and timestamp slots of the concrete state unchanged and
sets the error slot. -/
theorem c9_witness :
    (handleSubmit
      (ClientState.mk "INTJ" "" (some (Json.obj [("headline", Json.str "운")]))
        false none "12:00")
      "13:00" (FetchOutcome.resp false "\x7b\"error\":\"boom\"\x7d")).fortune =
      (ClientState.mk "INTJ" "" (some (Json.obj [("headline", Json.str "운")]))
        false none "12:00").fortune ∧
    (handleSubmit
      (ClientState.mk "INTJ" "" (some (Json.obj [("headline", Json.str "운")]))
        false none "12:00")
      "13:00" (FetchOutcome.resp false "\x7b\"error\":\"boom\"\x7d")).lastUpdated =
      (ClientState.mk "INTJ" "" (some (Json.obj [("headline", Json.str "운")]))
        false none "12:00").lastUpdated ∧
    ∃ msg, (handleSubmit
      (ClientState.mk "INTJ" "" (some (Json.obj [("headline", Json.str "운")]))
        false none "12:00")
      "13:00" (FetchOutcome.resp false "\x7b\"error\":\"boom\"\x7d")).error = some msg :=
  c9_failure_preserves_result
    (ClientState.mk "INTJ" "" (some (Json.obj [("headline", Json.str "운")]))
      false none "12:00")
    "13:00" (FetchOutcome.resp false "\x7b\"error\":\"boom\"\x7d") rfl rfl

/-- C10: every value the `mbti` state slot can reach other than the initial
empty string — the only values a submission can send, the submit handler
returning early on the empty string — is one of the sixteen uppercase codes,
and the endpoint's validation accepts it: reading the `mbti` field of the sent
body `{ mbti, concern }` yields the code itself (trimming and uppercasing fix
it), it is non-empty, and it matches the 4-letter pattern. -/
theorem c10_reachable_mbti_valid (m : String)
    (hr : MbtiReachable m) (hs : m ≠ "") :
    m ∈ MBTI_TYPES ∧
    readMbti (Json.obj [("mbti", Json.str m)]) = Except.ok m ∧
    mbtiPattern m = true := by
  have hmem : m ∈ MBTI_TYPES := by
    cases hr with
    | initial => exact absurd rfl hs
    | selected v hv =>
      rcases List.mem_cons.mp hv with heq | hmem
      · exact absurd heq hs
      · exact hmem
  fin_cases hmem <;> exact ⟨by decide, rfl, rfl⟩

/-- C10 (witness): the selectable code "INTJ" passes the endpoint's
validation. -/
theorem c10_witness :
    "INTJ" ∈ MBTI_TYPES ∧
    readMbti (Json.obj [("mbti", Json.str "INTJ")]) = Except.ok "INTJ" ∧
    mbtiPattern "INTJ" = true :=
  c10_reachable_mbti_valid "INTJ"
    (MbtiReachable.selected "INTJ" (by decide)) (by decide)

end MbtiFortune
